import Mathlib

/-!
Shallow embedding of the auth/session/permission layer, the API client
response handling, the CSV-export parameter construction, the Users page
permission guard, and the DataTable sorting logic of the dashboard
repository.  Pure TypeScript functions become Lean functions; the stateful
pieces (token store, auth context) become explicit state passing; the
side effects (toasts, navigation, fetches) become an explicit effect list.
-/

namespace Dashboard

/-- JavaScript string truthiness fallback: `a || b` on strings, where the
empty string is falsy. -/
def jsOr (a b : String) : String :=
  if a == "" then b else a

/-- JavaScript fallback through an optional string: `a || b` where `a` may
be `undefined` (modelled as `none`) and the empty string is falsy. -/
def jsOrStr (a : Option String) (b : String) : String :=
  match a with
  | some s => jsOr s b
  | none => b

/-- The `User` record of `src/lib/api.ts`. -/
structure User where
  id : Nat
  username : String
  email : String
  full_name : String
  role : String
  status : String
  is_active : Bool
  last_login : Option String
  created_at : String
  mfa_enabled : Bool
  vpn_enabled : Bool
deriving Repr, DecidableEq

/-- The `LoginResponse` record of `src/lib/api.ts`. -/
structure LoginResponse where
  access_token : String
  token_type : String
  expires_in : Nat
  user : User
deriving Repr, DecidableEq

/-- Permission hook `hasRole` from the auth context: `user?.role === role`.
When no user is loaded the optional chain yields `undefined`, which is
strictly equal to no string. -/
def hasRole (user : Option User) (role : String) : Bool :=
  match user with
  | some u => u.role == role
  | none => false

/-- Permission hook `hasAnyRole` from the auth context:
`roles.includes(user?.role || '')`. -/
def hasAnyRole (user : Option User) (roles : List String) : Bool :=
  roles.contains ((user.map User.role).getD "")

/-- Permission predicate `canManageUsers` from the auth context. -/
def canManageUsers (user : Option User) : Bool :=
  hasRole user "admin"

/-- Permission predicate `canManageClients` from the auth context. -/
def canManageClients (user : Option User) : Bool :=
  hasAnyRole user ["admin", "technician"]

/-- Permission predicate `canExecuteTasks` from the auth context. -/
def canExecuteTasks (user : Option User) : Bool :=
  hasAnyRole user ["admin", "technician"]

/-- Permission predicate `canViewAuditLogs` from the auth context.  The
source checks membership in the list `['admin', 'auditor']`. -/
def canViewAuditLogs (user : Option User) : Bool :=
  hasAnyRole user ["admin", "auditor"]

/-- Permission predicate `canExportData` from the auth context. -/
def canExportData (user : Option User) : Bool :=
  hasAnyRole user ["admin", "auditor"]

/-- The role table of the specification, row `canViewAuditLogs`: the spec
lists the roles admin, technician and auditor for this predicate. -/
def specCanViewAuditLogs (role : String) : Bool :=
  role == "admin" || role == "technician" || role == "auditor"

/-- A concrete technician user, used to compare the code predicates with
the role table of the specification. -/
def techUser : User :=
  { id := 2, username := "tech", email := "tech@example.com",
    full_name := "Tech Nician", role := "technician", status := "active",
    is_active := true, last_login := none, created_at := "2024-01-01",
    mfa_enabled := false, vpn_enabled := false }

/-- State of the `ApiClient` singleton: the in-memory `token` field plus
the `access_token` browser cookie that `saveToken`, `loadToken` and
`clearToken` manipulate. -/
structure ApiState where
  token : Option String
  cookie : Option String
deriving Repr, DecidableEq

/-- Observable side effects of the embedded code: hard browser navigation
`window.location.href = path`, router navigation `router.push(path)`,
toasts, console logging, and the user-list fetch issued by the Users
page. -/
inductive Effect where
  | hardNavigate (path : String)
  | routerPush (path : String)
  | toastError (msg : String)
  | toastSuccess (msg : String)
  | consoleError (msg : String)
  | fetchUsers (page perPage : Nat) (search : Option String)
deriving Repr, DecidableEq

/-- An axios error as seen by the response interceptor:
`error.response?.status` (absent on network errors),
`error.response?.data?.detail`, and `error.message`. -/
structure BackendError where
  status? : Option Nat
  detail? : Option String
  message : String
deriving Repr, DecidableEq

/-- `ApiClient.saveToken`: stores the token in memory and in the
`access_token` cookie. -/
def saveToken (_st : ApiState) (t : String) : ApiState :=
  { token := some t, cookie := some t }

/-- `ApiClient.clearToken`: removes the token from memory and removes the
`access_token` cookie. -/
def clearToken (_st : ApiState) : ApiState :=
  { token := none, cookie := none }

/-- JavaScript truthiness of the nullable token string: `!!this.token`. -/
def jsTokenTruthy (t : Option String) : Bool :=
  match t with
  | some s => !(s == "")
  | none => false

/-- `ApiClient.isAuthenticated`: `!!this.token`. -/
def apiIsAuthenticated (st : ApiState) : Bool :=
  jsTokenTruthy st.token

/-- The error message shown by the response interceptor:
`error.response?.data?.detail || error.message || 'An error occurred'`. -/
def interceptorMessage (e : BackendError) : String :=
  jsOr (jsOrStr e.detail? e.message) "An error occurred"

/-- The response interceptor installed in the `ApiClient` constructor.
Every request of every API operation travels through the one axios
instance carrying this interceptor.  A successful response passes through
untouched; an error response first clears the token and hard-navigates to
the login page when its status is 401, then raises an error toast, and
is re-rejected to the caller. -/
def handleResponse (α : Type) (st : ApiState) (r : Except BackendError α) :
    ApiState × List Effect × Except BackendError α :=
  match r with
  | Except.ok a => (st, [], Except.ok a)
  | Except.error e =>
      let is401 := e.status? == some 401
      let st1 := if is401 then clearToken st else st
      let navEffs := if is401 then [Effect.hardNavigate "/login"] else []
      (st1, navEffs ++ [Effect.toastError (interceptorMessage e)], Except.error e)

/-- Recognises the hard navigation to the login screen among effects. -/
def isLoginRedirect (eff : Effect) : Bool :=
  match eff with
  | Effect.hardNavigate p => p == "/login"
  | _ => false

/-- Combined state of the auth layer: the `user` state of `AuthProvider`
plus the `ApiClient` token state. -/
structure AuthState where
  user : Option User
  api : ApiState
deriving Repr, DecidableEq

/-- The `isAuthenticated` value exposed by `AuthProvider`:
`!!user && apiClient.isAuthenticated()`. -/
def authIsAuthenticated (user : Option User) (api : ApiState) : Bool :=
  user.isSome && apiIsAuthenticated api

/-- Browser semantics of `window.location.href = '/login'`: a full page
load destroys the React tree, so `AuthProvider` remounts with `user`
equal to null, and a fresh `ApiClient` runs `loadToken`, reading the
token back from the `access_token` cookie. -/
def pageReload (cookie : Option String) : AuthState :=
  { user := none, api := { token := cookie, cookie := cookie } }

/-- `ApiClient.login`: posts the credentials; the response travels through
the interceptor; on success `saveToken` stores the returned access token;
an error is re-thrown. -/
def apiLogin (st : ApiState) (r : Except BackendError LoginResponse) :
    ApiState × List Effect × Except BackendError LoginResponse :=
  match handleResponse LoginResponse st r with
  | (st1, effs, Except.ok resp) => (saveToken st1 resp.access_token, effs, Except.ok resp)
  | (st1, effs, Except.error e) => (st1, effs, Except.error e)

/-- `AuthProvider.login`: calls `apiClient.login`; on success stores the
returned user, raises a welcome toast and pushes the dashboard route; on
failure logs, raises `error.response?.data?.detail || 'Login failed'` as
a toast and re-throws the error. -/
def authLogin (st : AuthState) (r : Except BackendError LoginResponse) :
    AuthState × List Effect × Except BackendError Unit :=
  match apiLogin st.api r with
  | (api1, effs, Except.ok resp) =>
      ({ user := some resp.user, api := api1 },
       effs ++ [Effect.toastSuccess ("Welcome back, " ++ resp.user.full_name ++ "!"),
                Effect.routerPush "/dashboard"],
       Except.ok ())
  | (api1, effs, Except.error e) =>
      ({ user := st.user, api := api1 },
       effs ++ [Effect.consoleError "Login failed:",
                Effect.toastError (jsOrStr e.detail? "Login failed")],
       Except.error e)

/-- `ApiClient.logout`: posts to the logout endpoint inside a
try/finally; whatever the outcome, the finally block runs `clearToken`. -/
def apiLogout (st : ApiState) (r : Except BackendError Unit) :
    ApiState × List Effect × Except BackendError Unit :=
  match handleResponse Unit st r with
  | (st1, effs, res) => (clearToken st1, effs, res)

/-- `AuthProvider.logout`: best-effort calls `apiClient.logout`, logging a
failure; the finally block always sets the user to null, raises a success
toast and pushes the login route. -/
def authLogout (st : AuthState) (r : Except BackendError Unit) :
    AuthState × List Effect :=
  match apiLogout st.api r with
  | (api1, effs, res) =>
      let catchEffs := match res with
        | Except.error _ => [Effect.consoleError "Logout error:"]
        | Except.ok _ => []
      ({ user := none, api := api1 },
       effs ++ catchEffs ++ [Effect.toastSuccess "Logged out successfully",
                             Effect.routerPush "/login"])

/-- Query parameters built by `ApiClient.exportAuditLogs`: starting from
an empty `URLSearchParams`, each entry of the filters object whose value
is truthy is appended in order; nothing else is appended.  A filter value
is `none` for a missing field and `some ""` for an empty string, both
falsy. -/
def exportAuditLogsParams (filters : Option (List (String × Option String))) :
    List (String × String) :=
  match filters with
  | none => []
  | some fs =>
      fs.filterMap (fun kv =>
        match kv.2 with
        | some v => if v == "" then none else some (kv.1, v)
        | none => none)

/-- Render outcome of the Users page component. -/
inductive UsersPageView where
  | accessDenied
  | usersTable
deriving Repr, DecidableEq

/-- The early-return render guard of the Users page: without the
`canManageUsers` permission the page renders the access-denied block. -/
def usersPageRender (user : Option User) : UsersPageView :=
  if canManageUsers user then UsersPageView.usersTable else UsersPageView.accessDenied

/-- Effects of the Users page mount/update effect hook: without the
`canManageUsers` permission it raises the access-denied toast and returns
before `loadUsers`; otherwise `loadUsers` issues
`apiClient.getUsers(page, 50, searchTerm || undefined)`. -/
def usersPageMountEffects (user : Option User) (page : Nat) (searchTerm : String) :
    List Effect :=
  if canManageUsers user then
    [Effect.fetchUsers page 50 (if searchTerm == "" then none else some searchTerm)]
  else
    [Effect.toastError "Access denied: Admin privileges required"]

/-- Sort direction state of the `DataTable` component. -/
inductive SortDirection where
  | asc
  | desc
deriving Repr, DecidableEq

/-- Sort state of the `DataTable` component: the selected column key, or
null when unsorted, and the current direction. -/
structure SortState where
  sortColumn : Option String
  sortDirection : SortDirection
deriving Repr, DecidableEq

/-- The direction flip in `handleSort`:
`sortDirection === 'asc' ? 'desc' : 'asc'`. -/
def toggleDirection (d : SortDirection) : SortDirection :=
  match d with
  | SortDirection.asc => SortDirection.desc
  | SortDirection.desc => SortDirection.asc

/-- `DataTable.handleSort`: ignore clicks on non-sortable columns; a click
on the current sort column toggles the direction; a click on a different
column selects it with ascending direction. -/
def handleSort (st : SortState) (sortable : Bool) (columnKey : String) : SortState :=
  if !sortable then st
  else if st.sortColumn == some columnKey then
    { st with sortDirection := toggleDirection st.sortDirection }
  else
    { sortColumn := some columnKey, sortDirection := SortDirection.asc }

/-- A table row, modelled as a JavaScript object with integer-valued
fields: an association list from property names to values.  A missing
property reads as `undefined`, modelled by `none`. -/
abbrev Row := List (String × Int)

/-- Property access `row[key]`: the value, or `none` for `undefined`. -/
def jsVal (r : Row) (k : String) : Option Int :=
  r.lookup k

/-- Strict equality `===` on two possibly-undefined values. -/
def jsValEq (a b : Option Int) : Bool :=
  match a, b with
  | some x, some y => x == y
  | none, none => true
  | _, _ => false

/-- The `>` comparison on two possibly-undefined values: any comparison
involving `undefined` is false. -/
def jsValGt (a b : Option Int) : Bool :=
  match a, b with
  | some x, some y => y < x
  | _, _ => false

/-- The `<` comparison on two possibly-undefined values: any comparison
involving `undefined` is false. -/
def jsValLt (a b : Option Int) : Bool :=
  match a, b with
  | some x, some y => x < y
  | _, _ => false

/-- The three-way comparison of the `DataTable` comparator body: 0 on
strictly equal values, 1 when the first is greater, -1 when smaller, and
0 when incomparable. -/
def compareVals (a b : Option Int) : Int :=
  if jsValEq a b then 0
  else if jsValGt a b then 1
  else if jsValLt a b then -1
  else 0

/-- The full `DataTable` comparator: the three-way comparison of the two
rows at the sort column, negated when the direction is descending. -/
def rowComparator (dir : SortDirection) (k : String) (a b : Row) : Int :=
  let c := compareVals (jsVal a k) (jsVal b k)
  match dir with
  | SortDirection.desc => c * (-1)
  | SortDirection.asc => c

/-- The ordering relation induced by the comparator, as used by a
comparator-driven sort: `a` may come before `b` when the comparator is
non-positive. -/
def sortLe (dir : SortDirection) (k : String) (a b : Row) : Prop :=
  rowComparator dir k a b ≤ 0

instance (dir : SortDirection) (k : String) : DecidableRel (sortLe dir k) :=
  fun a b => inferInstanceAs (Decidable (rowComparator dir k a b ≤ 0))

/-- `DataTable.sortedData`: with no sort column the data list itself is
returned; otherwise a copy of the data is sorted with the comparator.
`Array.prototype.sort` is stable per ECMA-262, so the sort of the copy is
modelled as the canonical stable sort, insertion sort, with respect to
the comparator relation. -/
def sortedData (data : List Row) (st : SortState) : List Row :=
  match st.sortColumn with
  | none => data
  | some k => List.insertionSort (sortLe st.sortDirection k) data

/-- The sort-column value of a row, defaulted; used only to state
sortedness of rows that all carry the sort column. -/
def valAt (r : Row) (k : String) : Int :=
  (jsVal r k).getD 0

/-- Heap-level model of the `sortedData` computation, making array
identity and mutation explicit.  The heap is a list of arrays and a row
list is referred to by index.  With no sort column the input reference is
returned as is; otherwise `[...data]` allocates a fresh copy at a fresh
reference and `.sort(comparator)` mutates that copy in place. -/
def sortRender (heap : List (List Row)) (dataRef : Nat) (st : SortState) :
    List (List Row) × Nat :=
  match st.sortColumn with
  | none => (heap, dataRef)
  | some k =>
      let original := heap.getD dataRef []
      let copyRef := heap.length
      let heap1 := heap ++ [original]
      let heap2 := heap1.set copyRef
        (List.insertionSort (sortLe st.sortDirection k) original)
      (heap2, copyRef)

/-! Theorems -/

/-- Boolean string equality agrees with decidable propositional
equality. -/
theorem str_beq_decide (a b : String) : (a == b) = decide (a = b) := by
  cases h : a == b
  · simp [Bool.eq_false_iff, ne_eq]
    intro he
    subst he
    simp at h
  · simp only [beq_iff_eq] at h
    simp [h]

/-- Claim C1, counterexample: for the loaded technician user the
`canViewAuditLogs` predicate of the code disagrees with the role table of
the spec, which lists admin, technician and auditor for that predicate;
the code checks membership in the list admin, auditor only. -/
theorem C1_role_table_counterexample :
    canViewAuditLogs (some techUser) ≠ specCanViewAuditLogs techUser.role := by
  decide

/-- Claim C1, amended: for every loaded CurrentUser, canManageUsers is
true iff the role is admin; canManageClients and canExecuteTasks are true
iff the role is admin or technician; canViewAuditLogs and canExportData
are true iff the role is admin or auditor. -/
theorem C1_role_table_amended (u : User) :
    canManageUsers (some u) = (u.role == "admin") ∧
    canManageClients (some u) = (u.role == "admin" || u.role == "technician") ∧
    canExecuteTasks (some u) = (u.role == "admin" || u.role == "technician") ∧
    canViewAuditLogs (some u) = (u.role == "admin" || u.role == "auditor") ∧
    canExportData (some u) = (u.role == "admin" || u.role == "auditor") := by
  simp [canManageUsers, canManageClients, canExecuteTasks, canViewAuditLogs,
    canExportData, hasRole, hasAnyRole, List.contains_cons, str_beq_decide]

/-- Claim C9: with no loaded user, hasRole and hasAnyRole are false for
every role argument drawn from the role set, and all five derived
permission predicates are false. -/
theorem C9_null_user_permissions (role : String)
    (_hrole : role ∈ (["admin", "technician", "auditor"] : List String)) :
    hasRole none role = false ∧
    (∀ roles : List String,
      (∀ r ∈ roles, r ∈ (["admin", "technician", "auditor"] : List String)) →
      hasAnyRole none roles = false) ∧
    canManageUsers none = false ∧
    canManageClients none = false ∧
    canExecuteTasks none = false ∧
    canViewAuditLogs none = false ∧
    canExportData none = false := by
  refine ⟨rfl, ?_, rfl, rfl, rfl, rfl, rfl⟩
  intro roles hsub
  unfold hasAnyRole
  simp only [Option.map_none', Option.getD_none]
  cases hc : roles.contains "" with
  | false => rfl
  | true =>
    have hmem : ("" : String) ∈ roles := List.elem_iff.mp hc
    have := hsub _ hmem
    simp at this

/-- Claim C9 witness at the role admin and the role list admin,
auditor. -/
theorem C9_null_user_permissions_witness :
    ("admin" ∈ (["admin", "technician", "auditor"] : List String)) ∧
    (∀ r ∈ (["admin", "auditor"] : List String),
      r ∈ (["admin", "technician", "auditor"] : List String)) ∧
    hasRole none "admin" = false ∧
    hasAnyRole none ["admin", "auditor"] = false ∧
    canManageUsers none = false ∧
    canManageClients none = false ∧
    canExecuteTasks none = false ∧
    canViewAuditLogs none = false ∧
    canExportData none = false :=
  ⟨by decide, by decide,
   (C9_null_user_permissions "admin" (by decide)).1,
   (C9_null_user_permissions "admin" (by decide)).2.1 ["admin", "auditor"] (by decide),
   (C9_null_user_permissions "admin" (by decide)).2.2.1,
   (C9_null_user_permissions "admin" (by decide)).2.2.2.1,
   (C9_null_user_permissions "admin" (by decide)).2.2.2.2.1,
   (C9_null_user_permissions "admin" (by decide)).2.2.2.2.2.1,
   (C9_null_user_permissions "admin" (by decide)).2.2.2.2.2.2⟩

/-- Claim C8: an authenticated auditor visiting the Users page gets the
access-denied render, and the mount effect raises only the access-denied
toast, returning before any user-list fetch. -/
theorem C8_auditor_users_page (u : User) (page : Nat) (searchTerm : String)
    (hrole : u.role = "auditor") :
    usersPageRender (some u) = UsersPageView.accessDenied ∧
    usersPageMountEffects (some u) page searchTerm =
      [Effect.toastError "Access denied: Admin privileges required"] := by
  have hperm : canManageUsers (some u) = false := by
    show (u.role == "admin") = false
    rw [hrole]
    rfl
  constructor
  · unfold usersPageRender
    rw [hperm]
    rfl
  · unfold usersPageMountEffects
    rw [hperm]
    rfl

/-- Claim C8 witness at a concrete auditor user. -/
theorem C8_auditor_users_page_witness :
    ({ techUser with role := "auditor" } : User).role = "auditor" ∧
    (usersPageRender (some { techUser with role := "auditor" }) =
       UsersPageView.accessDenied ∧
     usersPageMountEffects (some { techUser with role := "auditor" }) 1 "" =
       [Effect.toastError "Access denied: Admin privileges required"]) :=
  ⟨by decide, C8_auditor_users_page { techUser with role := "auditor" } 1 "" (by decide)⟩

/-- Claim C2: whatever API operation produced the response, a 401 error
passing through the single response interceptor leaves the token cleared
from memory and cookie, and the effect list holds exactly one hard
navigation to the login screen. -/
theorem C2_interceptor_401 (α : Type) (st : ApiState) (e : BackendError)
    (h401 : e.status? = some 401) :
    (handleResponse α st (Except.error e)).1.token = none ∧
    (handleResponse α st (Except.error e)).1.cookie = none ∧
    (handleResponse α st (Except.error e)).2.1.countP isLoginRedirect = 1 := by
  unfold handleResponse
  simp [h401, clearToken, List.countP_cons, isLoginRedirect]

/-- Claim C2 witness at a concrete 401 error. -/
theorem C2_interceptor_401_witness :
    (({ status? := some 401, detail? := some "Invalid credentials",
        message := "Request failed" } : BackendError).status? = some 401) ∧
    ((handleResponse Unit ⟨some "tok", some "tok"⟩
        (Except.error ⟨some 401, some "Invalid credentials", "Request failed"⟩)).1.token = none ∧
     (handleResponse Unit ⟨some "tok", some "tok"⟩
        (Except.error ⟨some 401, some "Invalid credentials", "Request failed"⟩)).1.cookie = none ∧
     (handleResponse Unit ⟨some "tok", some "tok"⟩
        (Except.error ⟨some 401, some "Invalid credentials", "Request failed"⟩)).2.1.countP
        isLoginRedirect = 1) :=
  ⟨by decide, C2_interceptor_401 Unit ⟨some "tok", some "tok"⟩
     ⟨some 401, some "Invalid credentials", "Request failed"⟩ (by decide)⟩

/-- Claim C4: whatever the backend logout call returns, `logout` always
clears the token from memory and cookie, clears the local user record,
leaves the auth state unauthenticated, and pushes the login route. -/
theorem C4_logout_always_clears (st : AuthState) (r : Except BackendError Unit) :
    (authLogout st r).1.user = none ∧
    (authLogout st r).1.api.token = none ∧
    (authLogout st r).1.api.cookie = none ∧
    Effect.routerPush "/login" ∈ (authLogout st r).2 ∧
    authIsAuthenticated (authLogout st r).1.user (authLogout st r).1.api = false := by
  unfold authLogout apiLogout handleResponse
  cases r with
  | ok a =>
      simp [clearToken, authIsAuthenticated, apiIsAuthenticated, jsTokenTruthy]
  | error e =>
      simp [clearToken, authIsAuthenticated, apiIsAuthenticated, jsTokenTruthy]

/-- Claim C5: when the backend rejects the credentials, `login` re-throws
the error, raises a toast carrying the backend detail message with the
generic fallback, stores no token, and leaves the auth state
unauthenticated. -/
theorem C5_login_failure (st : AuthState) (e : BackendError)
    (huser : st.user = none) (htok : jsTokenTruthy st.api.token = false) :
    (authLogin st (Except.error e)).2.2 = Except.error e ∧
    Effect.toastError (jsOrStr e.detail? "Login failed") ∈ (authLogin st (Except.error e)).2.1 ∧
    (authLogin st (Except.error e)).1.user = none ∧
    jsTokenTruthy (authLogin st (Except.error e)).1.api.token = false ∧
    authIsAuthenticated (authLogin st (Except.error e)).1.user
      (authLogin st (Except.error e)).1.api = false := by
  unfold authLogin apiLogin handleResponse
  have hnone : jsTokenTruthy none = false := rfl
  by_cases h : e.status? == some 401 <;>
    simp [h, clearToken, huser, htok, hnone, authIsAuthenticated,
      apiIsAuthenticated]

/-- Claim C5 witness: a login rejected with 401 and the detail message
Invalid credentials, from the unauthenticated initial state. -/
theorem C5_login_failure_witness :
    ((⟨none, ⟨none, none⟩⟩ : AuthState).user = none ∧
     jsTokenTruthy (⟨none, ⟨none, none⟩⟩ : AuthState).api.token = false) ∧
    ((authLogin ⟨none, ⟨none, none⟩⟩
        (Except.error ⟨some 401, some "Invalid credentials", "Request failed"⟩)).2.2 =
       Except.error ⟨some 401, some "Invalid credentials", "Request failed"⟩ ∧
     Effect.toastError (jsOrStr (some "Invalid credentials") "Login failed") ∈
       (authLogin ⟨none, ⟨none, none⟩⟩
        (Except.error ⟨some 401, some "Invalid credentials", "Request failed"⟩)).2.1 ∧
     (authLogin ⟨none, ⟨none, none⟩⟩
        (Except.error ⟨some 401, some "Invalid credentials", "Request failed"⟩)).1.user = none ∧
     jsTokenTruthy (authLogin ⟨none, ⟨none, none⟩⟩
        (Except.error ⟨some 401, some "Invalid credentials", "Request failed"⟩)).1.api.token =
       false ∧
     authIsAuthenticated
       (authLogin ⟨none, ⟨none, none⟩⟩
        (Except.error ⟨some 401, some "Invalid credentials", "Request failed"⟩)).1.user
       (authLogin ⟨none, ⟨none, none⟩⟩
        (Except.error ⟨some 401, some "Invalid credentials", "Request failed"⟩)).1.api =
       false) :=
  ⟨⟨rfl, rfl⟩, C5_login_failure ⟨none, ⟨none, none⟩⟩
     ⟨some 401, some "Invalid credentials", "Request failed"⟩ rfl rfl⟩

/-- Claim C3: the exposed isAuthenticated value is true exactly when a
truthy token is held and a CurrentUser is loaded; and a 401 response
clears the token from memory and cookie while the forced hard navigation,
which reloads the page and remounts the provider, leaves the CurrentUser
cleared as well, so the whole auth layer ends unauthenticated. -/
theorem C3_auth_invariant (user : Option User) (api : ApiState) :
    (authIsAuthenticated user api = true ↔
      (user.isSome = true ∧ jsTokenTruthy api.token = true)) ∧
    (∀ e : BackendError, e.status? = some 401 →
      (handleResponse Unit api (Except.error e)).1.token = none ∧
      (handleResponse Unit api (Except.error e)).1.cookie = none ∧
      (pageReload (handleResponse Unit api (Except.error e)).1.cookie).user = none ∧
      (pageReload (handleResponse Unit api (Except.error e)).1.cookie).api.token = none ∧
      authIsAuthenticated
        (pageReload (handleResponse Unit api (Except.error e)).1.cookie).user
        (pageReload (handleResponse Unit api (Except.error e)).1.cookie).api = false) := by
  constructor
  · unfold authIsAuthenticated apiIsAuthenticated
    simp [Bool.and_eq_true]
  · intro e h401
    unfold handleResponse pageReload
    simp [h401, clearToken, authIsAuthenticated, apiIsAuthenticated, jsTokenTruthy]

/-- Claim C3 witness: the invariant evaluated at a loaded user with a
held token, and the 401 clearing at a concrete error. -/
theorem C3_auth_invariant_witness :
    (authIsAuthenticated (some techUser) ⟨some "tok", some "tok"⟩ = true ↔
      ((some techUser).isSome = true ∧
       jsTokenTruthy (⟨some "tok", some "tok"⟩ : ApiState).token = true)) ∧
    ((⟨some 401, some "Not authenticated", "Request failed"⟩ :
        BackendError).status? = some 401) ∧
    (handleResponse Unit ⟨some "tok", some "tok"⟩
       (Except.error ⟨some 401, some "Not authenticated", "Request failed"⟩)).1.token =
      none ∧
    (handleResponse Unit ⟨some "tok", some "tok"⟩
       (Except.error ⟨some 401, some "Not authenticated", "Request failed"⟩)).1.cookie =
      none ∧
    (pageReload (handleResponse Unit ⟨some "tok", some "tok"⟩
       (Except.error ⟨some 401, some "Not authenticated",
         "Request failed"⟩)).1.cookie).user = none ∧
    (pageReload (handleResponse Unit ⟨some "tok", some "tok"⟩
       (Except.error ⟨some 401, some "Not authenticated",
         "Request failed"⟩)).1.cookie).api.token = none ∧
    authIsAuthenticated
      (pageReload (handleResponse Unit ⟨some "tok", some "tok"⟩
         (Except.error ⟨some 401, some "Not authenticated",
           "Request failed"⟩)).1.cookie).user
      (pageReload (handleResponse Unit ⟨some "tok", some "tok"⟩
         (Except.error ⟨some 401, some "Not authenticated",
           "Request failed"⟩)).1.cookie).api = false :=
  ⟨(C3_auth_invariant (some techUser) ⟨some "tok", some "tok"⟩).1,
   by decide,
   (C3_auth_invariant (some techUser) ⟨some "tok", some "tok"⟩).2
     ⟨some 401, some "Not authenticated", "Request failed"⟩ (by decide)⟩

/-- Claim C7: the CSV export request carries exactly the active filter
parameters: a key-value pair appears among the built query parameters iff
the filters object holds that key with that truthy value; with no filters
object no parameter is appended at all. -/
theorem C7_export_params_exact (fs : List (String × Option String)) (k v : String) :
    ((k, v) ∈ exportAuditLogsParams (some fs) ↔ ((k, some v) ∈ fs ∧ v ≠ "")) ∧
    exportAuditLogsParams none = [] := by
  refine ⟨?_, rfl⟩
  unfold exportAuditLogsParams
  rw [List.mem_filterMap]
  constructor
  · rintro ⟨⟨k2, v2⟩, hmem, hf⟩
    cases v2 with
    | none => simp at hf
    | some s =>
        by_cases hs : s == ""
        · simp [hs] at hf
        · simp [hs] at hf
          obtain ⟨rfl, rfl⟩ := hf
          exact ⟨hmem, by simpa using hs⟩
  · rintro ⟨hmem, hv⟩
    exact ⟨(k, some v), hmem, by simp [hv]⟩

/-- Ordered insertion only inspects the relation between the inserted
element and list members, so relations agreeing there insert alike. -/
theorem orderedInsert_congr (r s : Row → Row → Prop)
    [DecidableRel r] [DecidableRel s] (a : Row) (l : List Row)
    (h : ∀ b ∈ l, (r a b ↔ s a b)) :
    l.orderedInsert r a = l.orderedInsert s a := by
  induction l with
  | nil => rfl
  | cons b bs ih =>
      simp only [List.orderedInsert]
      by_cases hrb : r a b
      · rw [if_pos hrb, if_pos ((h b (List.mem_cons_self b bs)).mp hrb)]
      · rw [if_neg hrb, if_neg (fun hs => hrb ((h b (List.mem_cons_self b bs)).mpr hs)),
          ih (fun x hx => h x (List.mem_cons_of_mem b hx))]

/-- Insertion sort only inspects the relation between list members, so
relations agreeing on members sort alike. -/
theorem insertionSort_congr (r s : Row → Row → Prop)
    [DecidableRel r] [DecidableRel s] (l : List Row)
    (h : ∀ a ∈ l, ∀ b ∈ l, (r a b ↔ s a b)) :
    List.insertionSort r l = List.insertionSort s l := by
  induction l with
  | nil => rfl
  | cons a l ih =>
      simp only [List.insertionSort]
      rw [ih (fun x hx y hy =>
        h x (List.mem_cons_of_mem a hx) y (List.mem_cons_of_mem a hy))]
      exact orderedInsert_congr r s a (List.insertionSort s l)
        (fun b hb => h a (List.mem_cons_self a l) b
          (List.mem_cons_of_mem a ((List.mem_insertionSort s).mp hb)))

/-- On rows that carry the sort column, the ascending comparator relation
is exactly the value ordering at that column. -/
theorem sortLe_iff_of_keys (k : String) (a b : Row)
    (ha : (jsVal a k).isSome = true) (hb : (jsVal b k).isSome = true) :
    sortLe SortDirection.asc k a b ↔ valAt a k ≤ valAt b k := by
  obtain ⟨x, hx⟩ := Option.isSome_iff_exists.mp ha
  obtain ⟨y, hy⟩ := Option.isSome_iff_exists.mp hb
  unfold sortLe rowComparator compareVals valAt
  rw [hx, hy]
  simp only [jsValEq, jsValGt, jsValLt, Option.getD_some, beq_iff_eq,
    decide_eq_true_eq]
  split_ifs with h1 h2 h3 <;> omega

/-- Stability of the comparator sort: for any value, the rows carrying
that value at the sort column appear in the sorted output in their
original relative order. -/
theorem filter_insertionSort_comparator (d : SortDirection) (k : String)
    (data : List Row) (v : Int) :
    (List.insertionSort (sortLe d k) data).filter (fun r => jsVal r k == some v)
      = data.filter (fun r => jsVal r k == some v) := by
  set p : Row → Bool := fun r => jsVal r k == some v with hp
  have hpair : (data.filter p).Pairwise (sortLe d k) := by
    refine List.pairwise_of_forall_mem_list ?_
    intro a hha b hhb
    have hpa : jsVal a k = some v := by
      have := (List.mem_filter.mp hha).2
      simpa [hp] using this
    have hpb : jsVal b k = some v := by
      have := (List.mem_filter.mp hhb).2
      simpa [hp] using this
    unfold sortLe rowComparator compareVals
    rw [hpa, hpb]
    unfold jsValEq
    simp only [beq_self_eq_true, if_true]
    cases d <;> simp
  have hsub : (data.filter p).Sublist (List.insertionSort (sortLe d k) data) :=
    List.sublist_insertionSort hpair (List.filter_sublist data)
  have hidem : (data.filter p).filter p = data.filter p :=
    List.filter_eq_self.mpr (fun a ha => (List.mem_filter.mp ha).2)
  have hsub2 : (data.filter p).Sublist
      ((List.insertionSort (sortLe d k) data).filter p) := by
    have := hsub.filter p
    rwa [hidem] at this
  have hlen : ((List.insertionSort (sortLe d k) data).filter p).length
      = (data.filter p).length :=
    ((List.perm_insertionSort (sortLe d k) data).filter p).length_eq
  exact (hsub2.eq_of_length hlen.symm).symm

/-- Claim C6: clicking a fresh sortable column selects it ascending, a
second click toggles to descending, a third returns to ascending; the
ascending view is a permutation of the data, sorted by the three-way
comparator with rows of equal key kept in their original relative order. -/
theorem C6_sort_toggle_and_order (s : SortState) (k : String) (data : List Row)
    (hcol : s.sortColumn ≠ some k) :
    handleSort s true k = ⟨some k, SortDirection.asc⟩ ∧
    handleSort (handleSort s true k) true k = ⟨some k, SortDirection.desc⟩ ∧
    handleSort (handleSort (handleSort s true k) true k) true k
      = ⟨some k, SortDirection.asc⟩ ∧
    (sortedData data ⟨some k, SortDirection.asc⟩).Perm data ∧
    (∀ v : Int,
      (sortedData data ⟨some k, SortDirection.asc⟩).filter
          (fun r => jsVal r k == some v)
        = data.filter (fun r => jsVal r k == some v)) ∧
    ((∀ x ∈ data, (jsVal x k).isSome = true) →
      (sortedData data ⟨some k, SortDirection.asc⟩).Pairwise
        (fun a b => valAt a k ≤ valAt b k)) := by
  have hbeq : (s.sortColumn == some k) = false := by
    cases hc : s.sortColumn == some k
    · rfl
    · exact absurd (eq_of_beq hc) hcol
  have h1 : handleSort s true k = ⟨some k, SortDirection.asc⟩ := by
    unfold handleSort
    simp [hbeq]
  have h2 : handleSort ⟨some k, SortDirection.asc⟩ true k
      = ⟨some k, SortDirection.desc⟩ := by
    unfold handleSort toggleDirection
    simp
  have h3 : handleSort ⟨some k, SortDirection.desc⟩ true k
      = ⟨some k, SortDirection.asc⟩ := by
    unfold handleSort toggleDirection
    simp
  refine ⟨h1, ?_, ?_, ?_, ?_, ?_⟩
  · rw [h1]
    exact h2
  · rw [h1, h2]
    exact h3
  · exact List.perm_insertionSort (sortLe SortDirection.asc k) data
  · intro v
    exact filter_insertionSort_comparator SortDirection.asc k data v
  · intro hkeys
    show (List.insertionSort (sortLe SortDirection.asc k) data).Pairwise
      (fun a b => valAt a k ≤ valAt b k)
    have hcongr : List.insertionSort (sortLe SortDirection.asc k) data
        = List.insertionSort (fun a b => valAt a k ≤ valAt b k) data :=
      insertionSort_congr (sortLe SortDirection.asc k)
        (fun a b => valAt a k ≤ valAt b k) data
        (fun a ha b hb => sortLe_iff_of_keys k a b (hkeys a ha) (hkeys b hb))
    rw [hcongr]
    haveI : IsTotal Row (fun a b => valAt a k ≤ valAt b k) :=
      ⟨fun a b => le_total (valAt a k) (valAt b k)⟩
    haveI : IsTrans Row (fun a b => valAt a k ≤ valAt b k) :=
      ⟨fun a b c hab hbc => le_trans hab hbc⟩
    exact List.sorted_insertionSort (fun a b => valAt a k ≤ valAt b k) data

/-- Claim C6 witness: the toggle chain and the sort of four concrete rows
holding a tie, with the stability and sortedness conclusions evaluated. -/
theorem C6_sort_toggle_and_order_witness :
    ((⟨none, SortDirection.asc⟩ : SortState).sortColumn ≠ some "k") ∧
    (handleSort ⟨none, SortDirection.asc⟩ true "k" = ⟨some "k", SortDirection.asc⟩ ∧
     handleSort (handleSort ⟨none, SortDirection.asc⟩ true "k") true "k"
       = ⟨some "k", SortDirection.desc⟩ ∧
     (sortedData [[("k", (3 : Int)), ("i", 0)], [("k", (1 : Int)), ("i", 1)],
        [("k", (3 : Int)), ("i", 2)], [("k", (2 : Int)), ("i", 3)]]
        ⟨some "k", SortDirection.asc⟩).filter
        (fun r => jsVal r "k" == some (3 : Int))
      = [[("k", (3 : Int)), ("i", 0)], [("k", (3 : Int)), ("i", 2)]]) := by
  have h := C6_sort_toggle_and_order ⟨none, SortDirection.asc⟩ "k"
    [[("k", (3 : Int)), ("i", 0)], [("k", (1 : Int)), ("i", 1)],
     [("k", (3 : Int)), ("i", 2)], [("k", (2 : Int)), ("i", 3)]] (by decide)
  refine ⟨by decide, h.1, h.2.1, ?_⟩
  rw [h.2.2.2.2.1 3]
  decide

/-- Claim C10: rendering the sorted view never mutates the input array:
the heap cell of the data reference is unchanged, and when a sort column
is set the view lives at a freshly allocated reference holding the sorted
copy. -/
theorem C10_sort_no_mutation (heap : List (List Row)) (dataRef : Nat)
    (st : SortState) (href : dataRef < heap.length) :
    (sortRender heap dataRef st).1.getD dataRef [] = heap.getD dataRef [] ∧
    (∀ k, st.sortColumn = some k →
      (sortRender heap dataRef st).2 = heap.length ∧
      dataRef < (sortRender heap dataRef st).2 ∧
      (sortRender heap dataRef st).1.getD (sortRender heap dataRef st).2 []
        = sortedData (heap.getD dataRef []) st) := by
  obtain ⟨col, dir⟩ := st
  cases col with
  | none =>
      refine ⟨rfl, ?_⟩
      intro k hk
      simp at hk
  | some k =>
      constructor
      · show ((heap ++ [heap.getD dataRef []]).set heap.length
            (List.insertionSort (sortLe dir k) (heap.getD dataRef []))).getD dataRef []
          = heap.getD dataRef []
        rw [List.getD_eq_getElem?_getD, List.getD_eq_getElem?_getD,
          List.getElem?_set_ne (Nat.ne_of_gt href), List.getElem?_append]
        rw [if_pos href]
      · intro k2 hk2
        have hk2eq : k2 = k := by
          simpa using hk2.symm
        subst hk2eq
        refine ⟨rfl, href, ?_⟩
        show ((heap ++ [heap.getD dataRef []]).set heap.length
            (List.insertionSort (sortLe dir k2) (heap.getD dataRef []))).getD heap.length []
          = sortedData (heap.getD dataRef []) ⟨some k2, dir⟩
        rw [List.getD_eq_getElem?_getD, List.getElem?_set_self]
        · rfl
        · rw [List.length_append]
          simp

/-- Claim C10 witness at a concrete one-array heap with the sort column
set. -/
theorem C10_sort_no_mutation_witness :
    (0 < ([[[("k", (2 : Int))], [("k", (1 : Int))]]] : List (List Row)).length) ∧
    ((⟨some "k", SortDirection.asc⟩ : SortState).sortColumn = some "k") ∧
    (sortRender [[[("k", (2 : Int))], [("k", (1 : Int))]]] 0
       ⟨some "k", SortDirection.asc⟩).1.getD 0 []
      = ([[[("k", (2 : Int))], [("k", (1 : Int))]]] : List (List Row)).getD 0 [] ∧
    (sortRender [[[("k", (2 : Int))], [("k", (1 : Int))]]] 0
       ⟨some "k", SortDirection.asc⟩).2
      = ([[[("k", (2 : Int))], [("k", (1 : Int))]]] : List (List Row)).length ∧
    0 < (sortRender [[[("k", (2 : Int))], [("k", (1 : Int))]]] 0
       ⟨some "k", SortDirection.asc⟩).2 ∧
    (sortRender [[[("k", (2 : Int))], [("k", (1 : Int))]]] 0
       ⟨some "k", SortDirection.asc⟩).1.getD
       (sortRender [[[("k", (2 : Int))], [("k", (1 : Int))]]] 0
         ⟨some "k", SortDirection.asc⟩).2 []
      = sortedData (([[[("k", (2 : Int))], [("k", (1 : Int))]]] :
          List (List Row)).getD 0 []) ⟨some "k", SortDirection.asc⟩ :=
  ⟨by decide, by decide,
   (C10_sort_no_mutation [[[("k", (2 : Int))], [("k", (1 : Int))]]] 0
     ⟨some "k", SortDirection.asc⟩ (by decide)).1,
   (C10_sort_no_mutation [[[("k", (2 : Int))], [("k", (1 : Int))]]] 0
     ⟨some "k", SortDirection.asc⟩ (by decide)).2 "k" (by decide)⟩

end Dashboard
